import Mathlib

/-!
# Verification of the `dns query` orchestration logic (`src/dns/mod.rs`)

A shallow embedding of `Dns::query`. External collaborators (the wire
client, the system-configuration reader, the name codec) are modelled as
oracles / inputs; the orchestration logic itself (server and transport
resolution, record-type and class resolution, connection selection,
concurrent dispatch, aggregation and result shaping) is translated
directly from the source.
-/

set_option maxHeartbeats 1000000

/-- The transport protocol enumeration of `trust_dns_resolver::config::Protocol`. -/
inductive Protocol
  | udp
  | tcp
  | tls
  | https
  | mdns
deriving DecidableEq, Repr

/-- An IPv4 address, four octets. -/
structure Ipv4 where
  a : Nat
  b : Nat
  c : Nat
  d : Nat
deriving DecidableEq, Repr

/-- A socket address: IP plus port (`std::net::SocketAddr`, IPv4 form;
no claim exercises IPv6 addresses). -/
structure SocketAddr where
  ip : Ipv4
  port : Nat
deriving DecidableEq, Repr

/-- One system- or default-configured name server: socket address plus
transport (`trust_dns_resolver::config::NameServerConfig`, the two fields
`Dns::query` reads). -/
structure NameServerConfig where
  socketAddr : SocketAddr
  protocol : Protocol
deriving DecidableEq, Repr

/-- DNS record types (`trust_dns_proto::rr::RecordType`, the part of the
vocabulary needed by the claims). -/
inductive RecordType
  | A
  | AAAA
  | ANAME
  | CAA
  | CNAME
  | HINFO
  | HTTPS
  | MX
  | NAPTR
  | NS
  | PTR
  | SOA
  | SRV
  | SSHFP
  | SVCB
  | TLSA
  | TXT
deriving DecidableEq, Repr

/-- DNS classes (`trust_dns_proto::rr::DNSClass`). -/
inductive DNSClass
  | IN
  | CH
  | HS
deriving DecidableEq, Repr

/-- The dynamic nushell value as seen at the flag boundary
(`nu_protocol::Value`, the variants `Dns::query` inspects). -/
inductive NuValue
  | str (s : String)
  | list (vs : List NuValue)
  | int (n : Int)

/-- The errors `Dns::query` can surface, one variant per `LabeledError`
label produced in `src/dns/mod.rs` (spans dropped; each variant carries
the diagnostic payload of its `msg`).  `unsupportedTransport` models the
`todo!()` panic on the unmatched transport arm (line 136), the condition
the design documents as `UnsupportedTransportError`; `panicUnreachable`
models `unwrap()` on the default resolver's first name server. -/
inductive DnsError
  | nameParse (msg : String)
  | invalidServerAddress (input : String)
  | protocolParse (input : String)
  | unsupportedRecordType (offending : String)
  | unsupportedClass (offending : String)
  | connectError (msg : String)
  | dnsResponse (underlying : String)
  | unsupportedTransport
  | panicUnreachable
deriving DecidableEq, Repr

/-! ## Address parsing (`SocketAddr::from_str` / `IpAddr::from_str`)

Models the standard library's IPv4 textual parsing used at lines 71-72 of
`src/dns/mod.rs`: four decimal octets 0-255 without leading zeros, and
`ip:port` for a socket address.  (IPv6 forms are not modelled; no claim
touches them.) -/

/-- Split a character list at every occurrence of the separator
(the character-level counterpart of splitting a string). -/
def splitOnChar (c : Char) : List Char → List (List Char)
  | [] => [[]]
  | x :: xs =>
    let r := splitOnChar c xs
    if x = c then [] :: r
    else match r with
      | [] => [[x]]
      | y :: ys => (x :: y) :: ys

/-- Parse a non-empty all-digit character sequence as a decimal number. -/
def parseNatDigits (l : List Char) : Option Nat :=
  if l.isEmpty then none
  else if l.all Char.isDigit then
    some (l.foldl (fun acc c => acc * 10 + (c.toNat - 48)) 0)
  else none

/-- Parse one decimal IPv4 octet: digits only, no leading zero, value ≤ 255. -/
def parseOctet (l : List Char) : Option Nat :=
  if l.length > 1 ∧ l.head? = some '0' then none
  else match parseNatDigits l with
    | some n => if n ≤ 255 then some n else none
    | none => none

/-- Parse a dotted-quad IPv4 address from characters. -/
def parseIpv4Chars (l : List Char) : Option Ipv4 :=
  match splitOnChar '.' l with
  | [a, b, c, d] =>
    match parseOctet a, parseOctet b, parseOctet c, parseOctet d with
    | some x, some y, some z, some w => some ⟨x, y, z, w⟩
    | _, _, _, _ => none
  | _ => none

/-- Parse a dotted-quad IPv4 address (`IpAddr::from_str`, IPv4 form). -/
def parseIpv4 (s : String) : Option Ipv4 :=
  parseIpv4Chars s.data

/-- Parse a decimal port number (≤ 65535). -/
def parsePort (l : List Char) : Option Nat :=
  match parseNatDigits l with
  | some n => if n ≤ 65535 then some n else none
  | none => none

/-- Parse `ip:port` (`SocketAddr::from_str`, IPv4 form). -/
def parseSocketAddr (s : String) : Option SocketAddr :=
  match splitOnChar ':' s.data with
  | [ipS, portS] =>
    match parseIpv4Chars ipS, parsePort portS with
    | some ip, some p => some ⟨ip, p⟩
    | _, _ => none
  | _ => none

/-- The name servers of `ResolverConfig::default()` (the fixed Google
resolver configuration used by the fallback at lines 87-92 and by
`read_system_conf().unwrap_or_default()`): for each address, a UDP and a
TCP entry on port 53.  The IPv6 entries are omitted; only the first entry
is ever read by `Dns::query`. -/
def googleNameServers : List NameServerConfig :=
  [ ⟨⟨⟨8, 8, 8, 8⟩, 53⟩, .udp⟩
  , ⟨⟨⟨8, 8, 8, 8⟩, 53⟩, .tcp⟩
  , ⟨⟨⟨8, 8, 4, 4⟩, 53⟩, .udp⟩
  , ⟨⟨⟨8, 8, 4, 4⟩, 53⟩, .tcp⟩ ]

/-- Server and transport resolution, lines 69-97 of `src/dns/mod.rs`.
`serverFlag` is the `--server` string when supplied; `protocol` is the
already-parsed `--protocol` flag; `sysConf` is the result of
`read_system_conf` (`none` when reading failed, in which case
`unwrap_or_default()` substitutes the default (Google) configuration).
Returns the resolved socket address and transport. -/
def resolveServer (serverFlag : Option String) (protocol : Option Protocol)
    (sysConf : Option (List NameServerConfig)) :
    Except DnsError (SocketAddr × Protocol) :=
  match serverFlag with
  | some s =>
    match parseSocketAddr s with
    | some addr => .ok (addr, protocol.getD .udp)
    | none =>
      match parseIpv4 s with
      | some ip => .ok (⟨ip, 53⟩, protocol.getD .udp)
      | none => .error (.invalidServerAddress s)
  | none =>
    match sysConf.getD googleNameServers with
    | ns :: _ => .ok (ns.socketAddr, ns.protocol)
    | [] =>
      match googleNameServers with
      | ns :: _ => .ok (ns.socketAddr, protocol.getD ns.protocol)
      | [] => .error .panicUnreachable

/-! ## Record-type, class and protocol flag parsing (lines 64-67, 99-114)

The conversions `serde::RType::try_from`, `serde::DNSClass::try_from` and
`serde::Protocol::try_from` live in `src/dns/serde.rs`, which is not part
of the provided sources; the string vocabularies below are modelled from
the spec.  The surrounding match structure (list vs. single value vs.
absent, and the defaults) is translated from `src/dns/mod.rs` itself. -/

/-- Modelled from the spec: the recognized record-type vocabulary
(`serde::RType::try_from`, `src/dns/serde.rs` is not in the sources). -/
def rtypeOfString (s : String) : Option RecordType :=
  match s with
  | "A" => some .A
  | "AAAA" => some .AAAA
  | "ANAME" => some .ANAME
  | "CAA" => some .CAA
  | "CNAME" => some .CNAME
  | "HINFO" => some .HINFO
  | "HTTPS" => some .HTTPS
  | "MX" => some .MX
  | "NAPTR" => some .NAPTR
  | "NS" => some .NS
  | "PTR" => some .PTR
  | "SOA" => some .SOA
  | "SRV" => some .SRV
  | "SSHFP" => some .SSHFP
  | "SVCB" => some .SVCB
  | "TLSA" => some .TLSA
  | "TXT" => some .TXT
  | _ => none

/-- Modelled from the spec: validate one record-type value against the
recognized vocabulary, failing with `UnsupportedRecordTypeError` naming
the offending value. -/
def parseRType (v : NuValue) : Except DnsError RecordType :=
  match v with
  | .str s =>
    match rtypeOfString s with
    | some t => .ok t
    | none => .error (.unsupportedRecordType s)
  | _ => .error (.unsupportedRecordType "non-string record type value")

/-- Record-type resolution, lines 99-109 of `src/dns/mod.rs`: a list is
validated element-wise (first failure wins, as `collect::<Result<..>>`),
a single value is validated and wrapped, and an absent flag defaults to
`[AAAA, A]`. -/
def parseQTypes : Option NuValue → Except DnsError (List RecordType)
  | some (.list vs) => vs.mapM parseRType
  | some v => (parseRType v).map (fun t => [t])
  | none => .ok [.AAAA, .A]

/-- Modelled from the spec: the recognized class vocabulary
(`serde::DNSClass::try_from`). -/
def dnsClassOfString (s : String) : Option DNSClass :=
  match s with
  | "IN" => some .IN
  | "CH" => some .CH
  | "HS" => some .HS
  | _ => none

/-- Class resolution, lines 111-114 of `src/dns/mod.rs`: validate the
supplied value, defaulting to `IN` when absent. -/
def parseDNSClassFlag : Option NuValue → Except DnsError DNSClass
  | none => .ok .IN
  | some (.str s) =>
    match dnsClassOfString s with
    | some c => .ok c
    | none => .error (.unsupportedClass s)
  | some _ => .error (.unsupportedClass "non-string class value")

/-- Modelled from the spec: the enumerated protocol flag vocabulary
(`serde::Protocol::try_from`): `udp` or `tcp`. -/
def protocolOfString (s : String) : Option Protocol :=
  match s with
  | "udp" => some .udp
  | "tcp" => some .tcp
  | _ => none

/-- Protocol flag resolution, lines 64-67 of `src/dns/mod.rs`. -/
def parseProtocolFlag : Option NuValue → Except DnsError (Option Protocol)
  | none => .ok none
  | some (.str s) =>
    match protocolOfString s with
    | some p => .ok (some p)
    | none => .error (.protocolParse s)
  | some _ => .error (.protocolParse "non-string protocol value")

/-! ## The wire client and the orchestration call -/

/-- The wire-client collaborator (`trust_dns_client::AsyncClient`):
`connect` opens a session to an address over a transport (lines 122-135),
`query` performs one typed query over the session (line 142), returning
the decoded message already converted to its value representation. -/
structure NetOracle where
  connect : SocketAddr → Protocol → Except String Unit
  query : String → DNSClass → RecordType → Except String NuValue

/-- The typed arguments of one `dns query` invocation: the name-codec
result for the positional argument, and the four optional flags. -/
structure QueryArgs where
  name : Except String String
  protocolFlag : Option NuValue
  serverFlag : Option String
  typeFlag : Option NuValue
  classFlag : Option NuValue

/-- The shape of the `message` field of the result record, lines 167-173
of `src/dns/mod.rs`: `Value::Nothing`, a bare message, or a list. -/
inductive MessageField
  | nothing
  | single (m : NuValue)
  | many (ms : List NuValue)

/-- The result record of `Dns::query` (lines 156-176): the reported
`name_server` record (address and protocol) and the collapsed `message`. -/
structure QueryResult where
  address : SocketAddr
  protocol : Protocol
  message : MessageField

/-- Result shaping, lines 167-173 of `src/dns/mod.rs`: collapse the
ordered message sequence by its length. -/
def collapse : List NuValue → MessageField
  | [] => .nothing
  | [m] => .single m
  | ms => .many ms

/-- Aggregation of the per-type outcomes, lines 139-151: collect the
results, the first error (in request order) failing the whole request
wrapped as `DNSResponseError`. -/
def collectOutcomes : List (Except String NuValue) → Except DnsError (List NuValue)
  | [] => .ok []
  | .error e :: _ => .error (.dnsResponse e)
  | .ok m :: rest => (collectOutcomes rest).map (fun ms => m :: ms)

/-- The first error among the ordered per-type outcomes, if any. -/
def firstError : List (Except String NuValue) → Option String
  | [] => none
  | .error e :: _ => some e
  | .ok _ :: rest => firstError rest

/-- The `dns query` orchestration, `Dns::query` in `src/dns/mod.rs`
(lines 46-179), translated match-for-match: name codec result, protocol
flag, server/transport resolution, record types, class, transport
establishment (the unmatched transport arm being the `todo!()` at line
136), concurrent dispatch with aggregation, and result shaping. -/
def Dns.query (args : QueryArgs) (sysConf : Option (List NameServerConfig))
    (net : NetOracle) : Except DnsError QueryResult :=
  match args.name with
  | .error e => .error (.nameParse e)
  | .ok name =>
    match parseProtocolFlag args.protocolFlag with
    | .error e => .error e
    | .ok protoFlag =>
      match resolveServer args.serverFlag protoFlag sysConf with
      | .error e => .error e
      | .ok (addr, protocol) =>
        match parseQTypes args.typeFlag with
        | .error e => .error e
        | .ok qtypes =>
          match parseDNSClassFlag args.classFlag with
          | .error e => .error e
          | .ok dnsClass =>
            match protocol with
            | .udp | .tcp =>
              match net.connect addr protocol with
              | .error e => .error (.connectError e)
              | .ok _ =>
                match collectOutcomes
                    (qtypes.map (fun qtype => net.query name dnsClass qtype)) with
                | .error e => .error e
                | .ok messages => .ok ⟨addr, protocol, collapse messages⟩
            | _ => .error .unsupportedTransport

/-! ## Concurrent dispatch and completion order (lines 139-146, spec section 5)

`futures_util::future::join_all` runs the per-type queries concurrently
and returns their results in input order, buffering each task's result
keyed by its position.  `eventsFrom`/`canonicalEvents` tag each per-type
outcome with its position in the request; a completion order is any
permutation of those events; `reassemble` is the position-keyed buffer
that rebuilds the request-ordered outcome list. -/

/-- Position-tagged per-type outcomes, positions counted from `i`. -/
def eventsFrom (f : RecordType → Except String NuValue) :
    Nat → List RecordType → List (Nat × Except String NuValue)
  | _, [] => []
  | i, qt :: rest => (i, f qt) :: eventsFrom f (i + 1) rest

/-- The per-type outcomes of a request, tagged with their request position. -/
def canonicalEvents (f : RecordType → Except String NuValue)
    (qtypes : List RecordType) : List (Nat × Except String NuValue) :=
  eventsFrom f 0 qtypes

/-- Rebuild the request-ordered outcome list from position-tagged
completion events (the position-indexed result buffer of `join_all`). -/
def reassemble (n : Nat) (events : List (Nat × Except String NuValue)) :
    List (Except String NuValue) :=
  (List.range n).map (fun i =>
    match events.find? (fun p => p.1 == i) with
    | some p => p.2
    | none => .error "missing response")

theorem countP_eventsFrom (f : RecordType → Except String NuValue) (k : Nat) :
    ∀ (l : List RecordType) (i : Nat),
      (eventsFrom f i l).countP (fun p => p.1 == k) =
        if i ≤ k ∧ k < i + l.length then 1 else 0 := by
  intro l
  induction l with
  | nil =>
    intro i
    simp only [eventsFrom, List.countP_nil, List.length_nil]
    split
    · omega
    · rfl
  | cons qt rest ih =>
    intro i
    simp only [eventsFrom, List.countP_cons, ih (i + 1), List.length_cons, beq_iff_eq]
    split_ifs <;> omega

theorem mem_eventsFrom (f : RecordType → Except String NuValue) :
    ∀ (l : List RecordType) (i k : Nat) (h : k < l.length),
      (i + k, f l[k]) ∈ eventsFrom f i l := by
  intro l
  induction l with
  | nil => intro i k h; simp at h
  | cons qt rest ih =>
    intro i k h
    cases k with
    | zero => simp [eventsFrom]
    | succ k' =>
      have h' : k' < rest.length := by simpa using Nat.lt_of_succ_lt_succ h
      have heq : i + (k' + 1) = (i + 1) + k' := by omega
      rw [List.getElem_cons_succ, heq]
      exact List.mem_cons_of_mem _ (ih (i + 1) k' h')

theorem find_of_countP_le_one :
    ∀ (l : List (Nat × Except String NuValue)) (k : Nat) (x : Except String NuValue),
      l.countP (fun p => p.1 == k) ≤ 1 → (k, x) ∈ l →
      l.find? (fun p => p.1 == k) = some (k, x) := by
  intro l
  induction l with
  | nil => intro k x _ hm; simp at hm
  | cons hd tl ih =>
    intro k x hc hm
    by_cases hk : hd.1 = k
    · rw [List.find?_cons_of_pos _ (by simp [hk])]
      have hcount : tl.countP (fun p => p.1 == k) = 0 := by
        rw [List.countP_cons] at hc
        simp only [hk, beq_self_eq_true, if_true] at hc
        omega
      have hnot : (k, x) ∉ tl := by
        intro hmem
        have := List.countP_eq_zero.mp hcount _ hmem
        simp at this
      rcases List.mem_cons.mp hm with h1 | h2
      · rw [← h1]
      · exact absurd h2 hnot
    · rw [List.find?_cons_of_neg _ (by simp [hk])]
      apply ih
      · rw [List.countP_cons] at hc
        omega
      · rcases List.mem_cons.mp hm with h1 | h2
        · exact absurd (congrArg Prod.fst h1.symm) hk
        · exact h2

/-- The position-keyed buffer is insensitive to completion order: any
permutation of the request's position-tagged outcomes reassembles to the
request-ordered outcome list. -/
theorem reassemble_perm (f : RecordType → Except String NuValue)
    (qtypes : List RecordType) (events : List (Nat × Except String NuValue))
    (hp : events.Perm (canonicalEvents f qtypes)) :
    reassemble qtypes.length events = qtypes.map f := by
  apply List.ext_getElem (by simp [reassemble])
  intro k h1 h2
  have hk : k < qtypes.length := by simpa using h2
  have hcount : events.countP (fun p => p.1 == k) = 1 := by
    rw [hp.countP_eq, canonicalEvents, countP_eventsFrom f k qtypes 0, if_pos]
    exact ⟨Nat.zero_le k, by omega⟩
  have hmem : (k, f qtypes[k]) ∈ events := by
    rw [hp.mem_iff, canonicalEvents]
    simpa using mem_eventsFrom f qtypes 0 k hk
  have hfind := find_of_countP_le_one events k _ (Nat.le_of_eq hcount) hmem
  simp [reassemble, hfind]

/-! ## Helper lemmas for the orchestration pipeline -/

theorem collectOutcomes_eq_error (l : List (Except String NuValue)) (e : String)
    (h : firstError l = some e) : collectOutcomes l = .error (.dnsResponse e) := by
  induction l with
  | nil => simp [firstError] at h
  | cons hd tl ih =>
    cases hd with
    | error e' =>
      simp only [firstError, Option.some.injEq] at h
      subst h
      rfl
    | ok m =>
      simp only [firstError] at h
      simp [collectOutcomes, ih h, Except.map]

/-- Unfolding of `Dns.query` on the success path of every resolution
stage: the call reduces to aggregation plus result shaping. -/
theorem query_run (args : QueryArgs) (sysConf : Option (List NameServerConfig))
    (net : NetOracle) (nm : String) (popt : Option Protocol)
    (addr : SocketAddr) (proto : Protocol)
    (qtypes : List RecordType) (cls : DNSClass)
    (hname : args.name = .ok nm)
    (hproto : parseProtocolFlag args.protocolFlag = .ok popt)
    (hserver : resolveServer args.serverFlag popt sysConf = .ok (addr, proto))
    (htypes : parseQTypes args.typeFlag = .ok qtypes)
    (hclass : parseDNSClassFlag args.classFlag = .ok cls)
    (hpt : proto = .udp ∨ proto = .tcp)
    (hconn : net.connect addr proto = .ok ()) :
    Dns.query args sysConf net =
      (collectOutcomes (qtypes.map (fun qtype => net.query nm cls qtype))).map
        (fun ms => ⟨addr, proto, collapse ms⟩) := by
  rcases hpt with h | h <;> subst h <;>
    simp only [Dns.query, hname, hproto, hserver, htypes, hclass, hconn] <;>
    cases hres : collectOutcomes (qtypes.map (fun qtype => net.query nm cls qtype)) <;>
    simp [hres, Except.map]

/-! ## The claims -/

/-- C1: for every request with no explicit server where the system's
configured name-server list is non-empty, the resolved server is the
first configured entry's socket address and transport taken verbatim,
and any explicitly requested transport `p` is ignored on this path. -/
theorem dns_c1_system_server_verbatim (p : Option Protocol)
    (ns : NameServerConfig) (rest : List NameServerConfig) :
    resolveServer none p (some (ns :: rest)) = .ok (ns.socketAddr, ns.protocol) := by
  simp [resolveServer, Option.getD]

/-- C2: for every request with no explicit server and no system name
servers found, the resolved server is the fixed default resolver
configuration's first name server (8.8.8.8:53, UDP), with an explicitly
requested transport overriding that default server's transport and the
default server's transport used otherwise. -/
theorem dns_c2_default_server_protocol_override (p : Option Protocol) :
    resolveServer none p (some []) =
      .ok (⟨⟨8, 8, 8, 8⟩, 53⟩, p.getD .udp) ∧
    resolveServer none (some Protocol.tcp) (some []) =
      .ok (⟨⟨8, 8, 8, 8⟩, 53⟩, .tcp) ∧
    resolveServer none none (some []) =
      .ok (⟨⟨8, 8, 8, 8⟩, 53⟩, .udp) := by
  refine ⟨?_, rfl, rfl⟩
  simp [resolveServer, googleNameServers, Option.getD]

/-- C3: an explicitly supplied server string is parsed as `host:port`
first, then as a bare IP with the port defaulted to 53, and if both
parses fail the call yields `InvalidServerAddressError`; the transport is
the explicitly requested one if given, else UDP.  In particular
`"203.0.113.5"` resolves to `203.0.113.5:53` over UDP. -/
theorem dns_c3_explicit_server_parse (s : String) (p : Option Protocol)
    (sysConf : Option (List NameServerConfig)) :
    (∀ a, parseSocketAddr s = some a →
      resolveServer (some s) p sysConf = .ok (a, p.getD .udp)) ∧
    (parseSocketAddr s = none → ∀ ip, parseIpv4 s = some ip →
      resolveServer (some s) p sysConf = .ok (⟨ip, 53⟩, p.getD .udp)) ∧
    (parseSocketAddr s = none → parseIpv4 s = none →
      resolveServer (some s) p sysConf = .error (.invalidServerAddress s)) ∧
    resolveServer (some "203.0.113.5") none sysConf =
      .ok (⟨⟨203, 0, 113, 5⟩, 53⟩, .udp) := by
  refine ⟨?_, ?_, ?_, rfl⟩
  · intro a ha
    simp [resolveServer, ha]
  · intro h1 ip h2
    simp [resolveServer, h1, h2]
  · intro h1 h2
    simp [resolveServer, h1, h2]

/-- Witness for C3: the three parse outcomes at concrete inputs. -/
theorem dns_c3_witness :
    resolveServer (some "10.0.0.1:5353") none none =
      .ok (⟨⟨10, 0, 0, 1⟩, 5353⟩, .udp) ∧
    resolveServer (some "not an address") none none =
      .error (.invalidServerAddress "not an address") :=
  ⟨(dns_c3_explicit_server_parse "10.0.0.1:5353" none none).1 ⟨⟨10, 0, 0, 1⟩, 5353⟩ rfl,
   (dns_c3_explicit_server_parse "not an address" none none).2.2.1 rfl rfl⟩

/-- C7: for every request where no record types are supplied, the
requested types default to exactly `[AAAA, A]` in that order; and for
every request where no class is supplied, the class defaults to `IN`. -/
theorem dns_c7_defaults :
    parseQTypes none = .ok [RecordType.AAAA, RecordType.A] ∧
    parseDNSClassFlag none = .ok DNSClass.IN :=
  ⟨rfl, rfl⟩

/-- C4: whenever at least one per-type query fails, the whole call fails
with `DNSResponseError` carrying the first error of the request-ordered
outcome sequence, and no partial message list is returned. -/
theorem dns_c4_first_error_fails_whole (args : QueryArgs)
    (sysConf : Option (List NameServerConfig)) (net : NetOracle)
    (nm : String) (popt : Option Protocol) (addr : SocketAddr) (proto : Protocol)
    (qtypes : List RecordType) (cls : DNSClass) (e : String)
    (hname : args.name = .ok nm)
    (hproto : parseProtocolFlag args.protocolFlag = .ok popt)
    (hserver : resolveServer args.serverFlag popt sysConf = .ok (addr, proto))
    (htypes : parseQTypes args.typeFlag = .ok qtypes)
    (hclass : parseDNSClassFlag args.classFlag = .ok cls)
    (hpt : proto = .udp ∨ proto = .tcp)
    (hconn : net.connect addr proto = .ok ())
    (hfail : firstError (qtypes.map (fun qtype => net.query nm cls qtype)) = some e) :
    Dns.query args sysConf net = .error (.dnsResponse e) ∧
    ∀ r, Dns.query args sysConf net ≠ .ok r := by
  have h := query_run args sysConf net nm popt addr proto qtypes cls
    hname hproto hserver htypes hclass hpt hconn
  rw [collectOutcomes_eq_error _ e hfail] at h
  simp only [Except.map] at h
  refine ⟨h, fun r hr => ?_⟩
  rw [h] at hr
  exact Except.noConfusion hr

/-- C5: on success the decoded messages appear in requested-type order
regardless of completion order: any permutation of the position-tagged
outcomes reassembles to the request order, and with the default types
`[AAAA, A]` the result is `[AAAA-answer, A-answer]`. -/
theorem dns_c5_request_order (args : QueryArgs)
    (sysConf : Option (List NameServerConfig)) (net : NetOracle)
    (nm : String) (popt : Option Protocol) (addr : SocketAddr) (proto : Protocol)
    (cls : DNSClass) (vAAAA vA : NuValue)
    (hname : args.name = .ok nm)
    (hproto : parseProtocolFlag args.protocolFlag = .ok popt)
    (hserver : resolveServer args.serverFlag popt sysConf = .ok (addr, proto))
    (htype : args.typeFlag = none)
    (hclass : parseDNSClassFlag args.classFlag = .ok cls)
    (hpt : proto = .udp ∨ proto = .tcp)
    (hconn : net.connect addr proto = .ok ())
    (hAAAA : net.query nm cls .AAAA = .ok vAAAA)
    (hA : net.query nm cls .A = .ok vA) :
    (∀ events,
      events.Perm (canonicalEvents (fun qtype => net.query nm cls qtype) [.AAAA, .A]) →
      reassemble 2 events = [.ok vAAAA, .ok vA]) ∧
    Dns.query args sysConf net = .ok ⟨addr, proto, .many [vAAAA, vA]⟩ := by
  constructor
  · intro events hp
    have h := reassemble_perm (fun qtype => net.query nm cls qtype) [.AAAA, .A] events hp
    simpa [hAAAA, hA] using h
  · have htypes : parseQTypes args.typeFlag = .ok [.AAAA, .A] := by rw [htype]; rfl
    have h := query_run args sysConf net nm popt addr proto [.AAAA, .A] cls
      hname hproto hserver htypes hclass hpt hconn
    simpa [collectOutcomes, hAAAA, hA, Except.map, collapse] using h

/-- C6: the result's `message` field collapses the ordered message
sequence: zero messages yield the absent marker, one message is returned
bare, two or more are returned as the full ordered list. -/
theorem dns_c6_collapse (args : QueryArgs)
    (sysConf : Option (List NameServerConfig)) (net : NetOracle)
    (nm : String) (popt : Option Protocol) (addr : SocketAddr) (proto : Protocol)
    (qtypes : List RecordType) (cls : DNSClass)
    (hname : args.name = .ok nm)
    (hproto : parseProtocolFlag args.protocolFlag = .ok popt)
    (hserver : resolveServer args.serverFlag popt sysConf = .ok (addr, proto))
    (htypes : parseQTypes args.typeFlag = .ok qtypes)
    (hclass : parseDNSClassFlag args.classFlag = .ok cls)
    (hpt : proto = .udp ∨ proto = .tcp)
    (hconn : net.connect addr proto = .ok ()) :
    collapse [] = .nothing ∧
    (∀ m, collapse [m] = .single m) ∧
    (∀ m m' rest, collapse (m :: m' :: rest) = .many (m :: m' :: rest)) ∧
    (∀ ms, collectOutcomes (qtypes.map (fun qtype => net.query nm cls qtype)) = .ok ms →
      Dns.query args sysConf net = .ok ⟨addr, proto, collapse ms⟩) := by
  refine ⟨rfl, fun m => rfl, fun m m' rest => rfl, fun ms hms => ?_⟩
  have h := query_run args sysConf net nm popt addr proto qtypes cls
    hname hproto hserver htypes hclass hpt hconn
  rw [hms] at h
  simpa [Except.map] using h

/-- Every failure of the per-value record-type validation is an
unsupported-record-type error. -/
theorem parseRType_error_shape (v : NuValue) (e : DnsError)
    (h : parseRType v = .error e) : ∃ off, e = .unsupportedRecordType off := by
  cases v with
  | str s =>
    cases hs : rtypeOfString s with
    | some t => simp [parseRType, hs] at h
    | none =>
      simp only [parseRType, hs, Except.error.injEq] at h
      exact ⟨s, h.symm⟩
  | list vs =>
    simp only [parseRType, Except.error.injEq] at h
    exact ⟨_, h.symm⟩
  | int n =>
    simp only [parseRType, Except.error.injEq] at h
    exact ⟨_, h.symm⟩

/-- Element-wise validation of a type list stops at the first offending
value: with every value before it valid, an unrecognized string `s` fails
the whole list with the error naming `s`. -/
theorem mapM_parseRType_first_offender :
    ∀ (pre post : List NuValue) (s : String),
      rtypeOfString s = none → (∀ v ∈ pre, ∃ t, parseRType v = .ok t) →
      (pre ++ .str s :: post).mapM parseRType =
        .error (.unsupportedRecordType s) := by
  intro pre
  induction pre with
  | nil =>
    intro post s hs _
    rw [List.nil_append, List.mapM_cons]
    rw [show parseRType (NuValue.str s) =
          Except.error (DnsError.unsupportedRecordType s) from by
        simp [parseRType, hs]]
    rfl
  | cons v rest ih =>
    intro post s hs hall
    obtain ⟨t, ht⟩ := hall v (List.mem_cons_self v rest)
    have hrest := ih post s hs (fun w hw => hall w (List.mem_cons_of_mem v hw))
    rw [List.cons_append, List.mapM_cons, ht, hrest]
    rfl

/-- Element-wise validation of a type list containing an unrecognized
string value always fails, with an unsupported-record-type error. -/
theorem mapM_parseRType_mem_offender :
    ∀ (vs : List NuValue) (s : String), NuValue.str s ∈ vs → rtypeOfString s = none →
      ∃ off, vs.mapM parseRType = .error (.unsupportedRecordType off) := by
  intro vs
  induction vs with
  | nil => intro s hmem _; simp at hmem
  | cons v rest ih =>
    intro s hmem hs
    cases hv : parseRType v with
    | error e =>
      obtain ⟨off, rfl⟩ := parseRType_error_shape v e hv
      exact ⟨off, by rw [List.mapM_cons, hv]; rfl⟩
    | ok t =>
      have hmem' : NuValue.str s ∈ rest := by
        rcases List.mem_cons.mp hmem with h1 | h2
        · exfalso
          rw [← h1] at hv
          simp [parseRType, hs] at hv
        · exact h2
      obtain ⟨off, hoff⟩ := ih s hmem' hs
      exact ⟨off, by rw [List.mapM_cons, hv, hoff]; rfl⟩

/-- C8: a record-type value outside the recognized vocabulary fails the
call with `UnsupportedRecordTypeError` naming the offending value, for
every wire oracle alike — no transport session is opened and no query is
sent.  Covers both supply forms: a single value, a list whose first
offending entry is the unrecognized value (the error names it), and in
general any list containing an unrecognized value (the call fails with
an `UnsupportedRecordTypeError`). -/
theorem dns_c8_unsupported_rtype_before_io (args : QueryArgs)
    (sysConf : Option (List NameServerConfig))
    (nm : String) (popt : Option Protocol) (addr : SocketAddr) (proto : Protocol)
    (hname : args.name = .ok nm)
    (hproto : parseProtocolFlag args.protocolFlag = .ok popt)
    (hserver : resolveServer args.serverFlag popt sysConf = .ok (addr, proto)) :
    (∀ s, args.typeFlag = some (.str s) → rtypeOfString s = none →
      ∀ net : NetOracle,
        Dns.query args sysConf net = .error (.unsupportedRecordType s)) ∧
    (∀ pre post s, args.typeFlag = some (.list (pre ++ .str s :: post)) →
      rtypeOfString s = none → (∀ v ∈ pre, ∃ t, parseRType v = .ok t) →
      ∀ net : NetOracle,
        Dns.query args sysConf net = .error (.unsupportedRecordType s)) ∧
    (∀ vs s, args.typeFlag = some (.list vs) → NuValue.str s ∈ vs →
      rtypeOfString s = none →
      ∃ off, ∀ net : NetOracle,
        Dns.query args sysConf net = .error (.unsupportedRecordType off)) := by
  refine ⟨?_, ?_, ?_⟩
  · intro s htype hs net
    have htypes : parseQTypes args.typeFlag = .error (.unsupportedRecordType s) := by
      rw [htype]
      simp [parseQTypes, parseRType, hs, Except.map]
    simp [Dns.query, hname, hproto, hserver, htypes]
  · intro pre post s htype hs hpre net
    have htypes : parseQTypes args.typeFlag = .error (.unsupportedRecordType s) := by
      rw [htype]
      exact mapM_parseRType_first_offender pre post s hs hpre
    simp [Dns.query, hname, hproto, hserver, htypes]
  · intro vs s htype hmem hs
    obtain ⟨off, hoff⟩ := mapM_parseRType_mem_offender vs s hmem hs
    refine ⟨off, fun net => ?_⟩
    have htypes : parseQTypes args.typeFlag = .error (.unsupportedRecordType off) := by
      rw [htype]
      exact hoff
    simp [Dns.query, hname, hproto, hserver, htypes]

/-- C9: a resolved transport outside the two supported ones never
silently proceeds: for every wire oracle the call terminates in the
unrecoverable unsupported-transport condition without issuing a query. -/
theorem dns_c9_unsupported_transport (args : QueryArgs)
    (sysConf : Option (List NameServerConfig))
    (nm : String) (popt : Option Protocol) (addr : SocketAddr) (proto : Protocol)
    (qtypes : List RecordType) (cls : DNSClass)
    (hname : args.name = .ok nm)
    (hproto : parseProtocolFlag args.protocolFlag = .ok popt)
    (hserver : resolveServer args.serverFlag popt sysConf = .ok (addr, proto))
    (htypes : parseQTypes args.typeFlag = .ok qtypes)
    (hclass : parseDNSClassFlag args.classFlag = .ok cls)
    (hbad : proto ≠ .udp ∧ proto ≠ .tcp) :
    ∀ net : NetOracle, Dns.query args sysConf net = .error .unsupportedTransport := by
  intro net
  cases proto with
  | udp => exact absurd rfl hbad.1
  | tcp => exact absurd rfl hbad.2
  | tls => simp [Dns.query, hname, hproto, hserver, htypes, hclass]
  | https => simp [Dns.query, hname, hproto, hserver, htypes, hclass]
  | mdns => simp [Dns.query, hname, hproto, hserver, htypes, hclass]

/-- C10: a type flag supplied as an empty list does not fail the call: a
transport session is still opened (the connect outcome decides the
result), zero queries are dispatched (any wire oracle gives the same
result), and on connection success the call succeeds with the absent
message marker. -/
theorem dns_c10_empty_type_list (args : QueryArgs)
    (sysConf : Option (List NameServerConfig))
    (nm : String) (popt : Option Protocol) (addr : SocketAddr) (proto : Protocol)
    (cls : DNSClass)
    (hname : args.name = .ok nm)
    (hproto : parseProtocolFlag args.protocolFlag = .ok popt)
    (hserver : resolveServer args.serverFlag popt sysConf = .ok (addr, proto))
    (htype : args.typeFlag = some (.list []))
    (hclass : parseDNSClassFlag args.classFlag = .ok cls)
    (hpt : proto = .udp ∨ proto = .tcp) :
    ∀ net : NetOracle,
      (net.connect addr proto = .ok () →
        Dns.query args sysConf net = .ok ⟨addr, proto, .nothing⟩) ∧
      (∀ e, net.connect addr proto = .error e →
        Dns.query args sysConf net = .error (.connectError e)) := by
  intro net
  have htypes : parseQTypes args.typeFlag = .ok [] := by rw [htype]; rfl
  constructor
  · intro hconn
    have h := query_run args sysConf net nm popt addr proto [] cls
      hname hproto hserver htypes hclass hpt hconn
    simpa [collectOutcomes, collapse, Except.map] using h
  · intro e hconn
    rcases hpt with h | h <;> subst h <;>
      simp [Dns.query, hname, hproto, hserver, htypes, hclass, hconn]

/-! ## Concrete fixtures for the witnesses -/

/-- A request with an explicit server and all other flags absent. -/
def argsDefault : QueryArgs :=
  ⟨.ok "example.com.", none, some "203.0.113.5", none, none⟩

/-- The same request with a single requested type `AAAA`. -/
def argsSingleType : QueryArgs :=
  ⟨.ok "example.com.", none, some "203.0.113.5", some (.str "AAAA"), none⟩

/-- The same request with the type flag supplied as an empty list. -/
def argsEmptyTypes : QueryArgs :=
  ⟨.ok "example.com.", none, some "203.0.113.5", some (.list []), none⟩

/-- The same request with an unrecognized record-type value. -/
def argsBadType : QueryArgs :=
  ⟨.ok "example.com.", none, some "203.0.113.5", some (.str "BOGUS"), none⟩

/-- The same request with an unrecognized record-type value inside a
type list, after a recognized one. -/
def argsBadTypeList : QueryArgs :=
  ⟨.ok "example.com.", none, some "203.0.113.5",
   some (.list [.str "A", .str "BOGUS"]), none⟩

/-- A request with no flags at all. -/
def argsNoServer : QueryArgs :=
  ⟨.ok "example.com.", none, none, none, none⟩

/-- The socket address `203.0.113.5:53`. -/
def testAddr : SocketAddr := ⟨⟨203, 0, 113, 5⟩, 53⟩

/-- A wire oracle on which every connect and every query succeeds,
answering `AAAA` queries with `"v6"` and all others with `"v4"`. -/
def netOk : NetOracle :=
  ⟨fun _ _ => .ok (),
   fun _ _ qtype => if qtype = .AAAA then .ok (.str "v6") else .ok (.str "v4")⟩

/-- A wire oracle that connects but fails `AAAA` queries with `"boom"`. -/
def netFailAAAA : NetOracle :=
  ⟨fun _ _ => .ok (),
   fun _ _ qtype => if qtype = .AAAA then .error "boom" else .ok (.str "v4")⟩

/-- A wire oracle on which opening a session fails with `"refused"`. -/
def netRefuse : NetOracle :=
  ⟨fun _ _ => .error "refused", fun _ _ _ => .error "never reached"⟩

/-- A TLS name server, for exercising the unsupported-transport arm. -/
def tlsNameServer : NameServerConfig := ⟨⟨⟨9, 9, 9, 9⟩, 853⟩, .tls⟩

/-- Witness for C4: a failing `AAAA` query fails the whole request with
`DNSResponseError` carrying that first error. -/
theorem dns_c4_witness :
    Dns.query argsDefault none netFailAAAA = .error (.dnsResponse "boom") :=
  (dns_c4_first_error_fails_whole argsDefault none netFailAAAA "example.com." none
    testAddr .udp [.AAAA, .A] .IN "boom" rfl rfl rfl rfl rfl (Or.inl rfl) rfl rfl).1

/-- Witness for C5: with default types the result order is
`[AAAA-answer, A-answer]`, and the swapped completion order reassembles
to the same request order. -/
theorem dns_c5_witness :
    Dns.query argsDefault none netOk = .ok ⟨testAddr, .udp, .many [.str "v6", .str "v4"]⟩ ∧
    reassemble 2 [(1, .ok (.str "v4")), (0, .ok (.str "v6"))] =
      [.ok (.str "v6"), .ok (.str "v4")] := by
  have h := dns_c5_request_order argsDefault none netOk "example.com." none
    testAddr .udp .IN (.str "v6") (.str "v4") rfl rfl rfl rfl rfl (Or.inl rfl) rfl rfl rfl
  refine ⟨h.2, h.1 [(1, .ok (.str "v4")), (0, .ok (.str "v6"))] ?_⟩
  exact List.Perm.swap _ _ _

/-- Witness for C6: a single requested type yields the bare message. -/
theorem dns_c6_witness :
    Dns.query argsSingleType none netOk = .ok ⟨testAddr, .udp, .single (.str "v6")⟩ :=
  (dns_c6_collapse argsSingleType none netOk "example.com." none testAddr .udp
    [.AAAA] .IN rfl rfl rfl rfl rfl (Or.inl rfl) rfl).2.2.2 [.str "v6"] rfl

/-- Witness for C8: the unrecognized value `"BOGUS"`, supplied as a
single value and inside a type list after the valid `"A"`, fails the call
even on an oracle whose connect always fails — no session is consulted. -/
theorem dns_c8_witness :
    Dns.query argsBadType none netRefuse =
      .error (.unsupportedRecordType "BOGUS") ∧
    Dns.query argsBadTypeList none netRefuse =
      .error (.unsupportedRecordType "BOGUS") :=
  ⟨(dns_c8_unsupported_rtype_before_io argsBadType none "example.com." none
      testAddr .udp rfl rfl rfl).1 "BOGUS" rfl rfl netRefuse,
   (dns_c8_unsupported_rtype_before_io argsBadTypeList none "example.com." none
      testAddr .udp rfl rfl rfl).2.1 [.str "A"] [] "BOGUS" rfl rfl
      (fun v hv => by
        rw [List.mem_singleton] at hv
        subst hv
        exact ⟨.A, rfl⟩)
      netRefuse⟩

/-- Witness for C9: a system-configured TLS name server makes the call
terminate in the unsupported-transport condition. -/
theorem dns_c9_witness :
    Dns.query argsNoServer (some [tlsNameServer]) netRefuse =
      .error .unsupportedTransport :=
  dns_c9_unsupported_transport argsNoServer (some [tlsNameServer]) "example.com."
    none ⟨⟨9, 9, 9, 9⟩, 853⟩ .tls [.AAAA, .A] .IN rfl rfl rfl rfl rfl
    (by refine ⟨?_, ?_⟩ <;> intro h <;> exact Protocol.noConfusion h) netRefuse

/-- Witness for C10: an empty type list succeeds with the absent marker
on a good oracle, and surfaces the connect failure on a refusing one. -/
theorem dns_c10_witness :
    Dns.query argsEmptyTypes none netOk = .ok ⟨testAddr, .udp, .nothing⟩ ∧
    Dns.query argsEmptyTypes none netRefuse = .error (.connectError "refused") :=
  ⟨(dns_c10_empty_type_list argsEmptyTypes none "example.com." none testAddr .udp
      .IN rfl rfl rfl rfl rfl (Or.inl rfl) netOk).1 rfl,
   (dns_c10_empty_type_list argsEmptyTypes none "example.com." none testAddr .udp
      .IN rfl rfl rfl rfl rfl (Or.inl rfl) netRefuse).2 "refused" rfl⟩
